import Mathlib

/-!
Verification of `src/static/script.js` (resume-analyzer front-end controller).

The file shallowly embeds the browser-side form controller: the parsed JSON
response shapes, the submit handler (fetch result processing, success
rendering, error rendering, finally-cleanup), the file-input change handler
and the "analyze another" reset handler.  DOM effects are modelled as a
record of the element states the script mutates; `style.display` values are
kept as the literal strings the script assigns.  JavaScript exceptions are
modelled with `Except`; `JSON.parse` of the raw body text is modelled by a
`Body` type recording whether the text parses and, when it does, which of
the fields the script reads are present.
-/

namespace ResumeAnalyzer

/-- Result of `JSON.parse` on a response body, restricted to the fields the
script reads.  `none` models an absent field (JS `undefined`). -/
structure AnalysisJson where
  error : Option String
  match_score : Option Int
  summary : Option String
  missing_keywords : Option (List String)
  tailoring_suggestions : Option (List String)
  ats_score : Option Int
  strengths : Option (List String)
  feedback : Option (List String)
  job_suggestions : Option (List String)
  deriving DecidableEq

/-- A response body as seen through `JSON.parse`: either the raw text is not
valid JSON (parse throws a SyntaxError) or it parses to a JSON object. -/
inductive Body where
  | malformed (raw : String)
  | json (j : AnalysisJson)
  deriving DecidableEq

/-- The parts of a `fetch` response the script reads. -/
structure Response where
  status : Nat
  statusText : String
  body : Body
  deriving DecidableEq

/-- `response.ok` per the Fetch standard: status in the range 200..299. -/
def Response.ok (r : Response) : Bool :=
  200 ≤ r.status && r.status ≤ 299

/-- JavaScript exception values thrown by the handler: `new Error(msg)`,
a `SyntaxError` from `JSON.parse`, or a `TypeError` from reading a property
of `undefined`. -/
inductive JsError where
  | error (msg : String)
  | syntaxError (msg : String)
  | typeError (msg : String)
  deriving DecidableEq

/-- The message carried by a thrown value (`error.message`). -/
def JsError.message : JsError → String
  | JsError.error m => m
  | JsError.syntaxError m => m
  | JsError.typeError m => m

/-- `JSON.parse(rawText)`: throws a SyntaxError on malformed input. -/
def jsonParse : Body → Except JsError AnalysisJson
  | Body.malformed _ => throw (JsError.syntaxError "Unexpected token in JSON")
  | Body.json j => pure j

/-- JS `x || fallback` where `x` is a possibly-undefined string field:
`undefined` and the empty string are falsy. -/
def jsOrOptStr (x : Option String) (fallback : String) : String :=
  match x with
  | Option.none => fallback
  | Option.some s => if s = "" then fallback else s

/-- JS `x || fallback` where `x` is a string: the empty string is falsy. -/
def jsOrStr (x : String) (fallback : String) : String :=
  if x = "" then fallback else x

/-- JS `x || fallback` where `x` is a possibly-undefined number field:
`undefined` and `0` are falsy; a truthy number is interpolated as its
decimal representation. -/
def jsOrNum (x : Option Int) (fallback : String) : String :=
  match x with
  | Option.none => fallback
  | Option.some n => if n = 0 then fallback else toString n

/-- Reading a list-valued field before calling `.join`/`.map` on it: in JS,
reading a property of `undefined` throws a TypeError. -/
def listField (x : Option (List String)) (p : String) : Except JsError (List String) :=
  match x with
  | Option.none =>
      throw (JsError.typeError ("Cannot read properties of undefined (reading \x27" ++ p ++ "\x27)"))
  | Option.some l => pure l

/-- `Array.prototype.join(sep)`. -/
def jsJoin (sep : String) : List String → String
  | [] => ""
  | [x] => x
  | x :: xs => x ++ sep ++ jsJoin sep xs

/-- One hexadecimal digit, upper case, as produced by `encodeURIComponent`. -/
def hexDigit (n : Nat) : Char :=
  if n < 10 then Char.ofNat (48 + n) else Char.ofNat (55 + n)

/-- UTF-8 encoding of one code point, as a list of byte values. -/
def utf8Bytes (c : Char) : List Nat :=
  let n := c.toNat
  if n < 128 then [n]
  else if n < 2048 then [192 + n / 64, 128 + n % 64]
  else if n < 65536 then [224 + n / 4096, 128 + (n / 64) % 64, 128 + n % 64]
  else [240 + n / 262144, 128 + (n / 4096) % 64, 128 + (n / 64) % 64, 128 + n % 64]

/-- Characters `encodeURIComponent` leaves unescaped
(ECMA-262: letters, digits, and `- _ . ! ~ * ' ( )`). -/
def uriUnescaped (c : Char) : Bool :=
  (65 ≤ c.toNat && c.toNat ≤ 90) || (97 ≤ c.toNat && c.toNat ≤ 122) ||
  (48 ≤ c.toNat && c.toNat ≤ 57) ||
  c = '-' || c = '_' || c = '.' || c = '!' || c = '~' || c = '*' ||
  c.toNat = 39 || c = '(' || c = ')'

/-- `encodeURIComponent`: unescaped characters pass through, all others are
percent-encoded byte-wise from their UTF-8 encoding. -/
def encodeURIComponent (s : String) : String :=
  String.mk (s.data.flatMap (fun c =>
    if uriUnescaped c then [c]
    else (utf8Bytes c).flatMap (fun b => ['%', hexDigit (b / 16), hexDigit (b % 16)])))

/-- The error-status branch of the submit handler.  The source wraps
`JSON.parse` and the structured `throw` in a `try` whose `catch` throws the
generic status-derived message; the `catch` observes any exception raised in
the `try`, the deliberately thrown structured `Error` included. -/
def errorStatusBranch (r : Response) : Except JsError String :=
  let inner : Except JsError String := do
    let errorData ← jsonParse r.body
    throw (JsError.error (jsOrOptStr errorData.error "Something went wrong on the server."))
  tryCatch inner (fun _e =>
    throw (JsError.error ("Server returned an error: " ++ toString r.status ++ " " ++ r.statusText)))

/-- The match-analysis template (job-description branch).  Inter-element
whitespace of the source template literal is elided; each contiguous
template chunk is kept intact. -/
def renderMatch (analysis : AnalysisJson) (ms : Int) : Except JsError String := do
  let mk ← listField analysis.missing_keywords "join"
  let ts ← listField analysis.tailoring_suggestions "map"
  pure ("<h3>Match Score: <span class=\"score\">" ++ toString ms ++ "/100</span></h3>"
    ++ "<p>" ++ jsOrOptStr analysis.summary "A summary of how well your resume matches the job description." ++ "</p>"
    ++ "<h4>❌ Missing Keywords:</h4>"
    ++ "<p>" ++ jsOrStr (jsJoin ", " mk) "Great job, no critical keywords seem to be missing!" ++ "</p>"
    ++ "<h4>💡 Tailoring Suggestions:</h4>"
    ++ "<ul>" ++ jsJoin "" (ts.map (fun item => "<li>" ++ item ++ "</li>")) ++ "</ul>")

/-- The search link built for one suggested role. -/
def linkedinUrl (role : String) : String :=
  "https://www.linkedin.com/jobs/search/?keywords=" ++ encodeURIComponent role ++ "&location=India"

/-- The general-analysis template. -/
def renderGeneral (analysis : AnalysisJson) : Except JsError String := do
  let st ← listField analysis.strengths "map"
  let fb ← listField analysis.feedback "map"
  let js ← listField analysis.job_suggestions "map"
  pure ("<h3>ATS Score: <span class=\"score\">" ++ jsOrNum analysis.ats_score "N/A" ++ "/100</span></h3>"
    ++ "<h4>✅ Strengths:</h4>"
    ++ "<ul>" ++ jsJoin "" (st.map (fun item => "<li>" ++ item ++ "</li>")) ++ "</ul>"
    ++ "<h4>📝 Feedback for Improvement:</h4>"
    ++ "<ul>" ++ jsJoin "" (fb.map (fun item => "<li>" ++ item ++ "</li>")) ++ "</ul>"
    ++ "<h4>🚀 Suggested Job Roles:</h4>"
    ++ "<ul>" ++ jsJoin "" (js.map (fun role =>
          "<li>" ++ role ++ " - <a href=\"" ++ linkedinUrl role ++ "\" target=\"_blank\">Search on LinkedIn</a></li>")) ++ "</ul>")

/-- The `try` block of the submit handler, from the `response.ok` check to
the assignment of the success HTML.  Returns the HTML written to the results
container, or the exception reaching the `catch` block. -/
def tryBlock (r : Response) : Except JsError String :=
  if !(Response.ok r) then errorStatusBranch r
  else do
    let analysis ← jsonParse r.body
    let htmlContent := "<h2>Analysis Complete!</h2>"
    match analysis.match_score with
    | Option.some ms => do
        let tail ← renderMatch analysis ms
        pure (htmlContent ++ tail)
    | Option.none => do
        let tail ← renderGeneral analysis
        pure (htmlContent ++ tail)

/-- The fixed user-facing explanation rendered for a JSON parse failure. -/
def parseFailMsg : String :=
  "There was a problem parsing the AI\x27s response. This can happen with very large resumes. Please try again."

/-- The `catch` block: maps the caught exception to the rendered message.
A `SyntaxError` gets the fixed parse explanation; anything else shows its
own message.  (The initial `"An unknown error occurred."` value of the
source is dead: both branches of the `instanceof` test overwrite it.) -/
def errorMessageFor (e : JsError) : String :=
  match e with
  | JsError.syntaxError _ => parseFailMsg
  | _ => e.message

/-- The error box HTML the `catch` block writes to the results container. -/
def errorBox (errorMessage : String) : String :=
  "<div class=\"error-box\"><h3>Analysis Failed</h3><p>" ++ errorMessage
    ++ "</p><p>Please try again with a different PDF file.</p></div>"

/-- The DOM state the script reads and mutates: the `style.display` strings
it assigns, the results container HTML, the filename display text, and the
form controls (`form.reset()` clears the file selection and the
job-description text). -/
structure UIState where
  loaderDisplay : String
  formContainerDisplay : String
  resultsDisplay : String
  analyzeAnotherDisplay : String
  resultsHTML : String
  fileNameText : String
  files : List String
  jobDescription : String
  deriving DecidableEq

/-- The file-input `change` handler: show the selected file name, or the
placeholder when no file is chosen. -/
def onFileChange (s : UIState) : UIState :=
  match s.files with
  | f :: _ => { s with fileNameText := f }
  | [] => { s with fileNameText := "No file chosen" }

/-- The form `submit` handler, as the state transition produced by one
completed submission whose awaited response is `r`: the pre-fetch UI
updates, the `try`/`catch` rendering, then the `finally` cleanup. -/
def onSubmit (s : UIState) (r : Response) : UIState :=
  let s := { s with loaderDisplay := "block", formContainerDisplay := "none",
                    resultsDisplay := "none", resultsHTML := "" }
  let s :=
    match tryBlock r with
    | Except.ok htmlContent => { s with resultsHTML := htmlContent }
    | Except.error e => { s with resultsHTML := errorBox (errorMessageFor e) }
  { s with loaderDisplay := "none", resultsDisplay := "block", analyzeAnotherDisplay := "block" }

/-- The "Analyze Another" `click` handler. -/
def onAnalyzeAnother (s : UIState) : UIState :=
  { s with resultsDisplay := "none", analyzeAnotherDisplay := "none",
           files := [], jobDescription := "",
           fileNameText := "No file chosen",
           formContainerDisplay := "block" }

/-- The chosen rendering branch reads a list field the body lacks: the
render template then throws a TypeError part-way. -/
def requiredListMissing (a : AnalysisJson) : Bool :=
  match a.match_score with
  | Option.some _ => a.missing_keywords.isNone || a.tailoring_suggestions.isNone
  | Option.none => a.strengths.isNone || a.feedback.isNone || a.job_suggestions.isNone

/-! ### Concrete inputs used by witnesses and counterexamples -/

/-- The page's initial UI state. -/
def s0 : UIState :=
  { loaderDisplay := "none", formContainerDisplay := "block", resultsDisplay := "none",
    analyzeAnotherDisplay := "none", resultsHTML := "", fileNameText := "No file chosen",
    files := [], jobDescription := "" }

/-- A parsed error body `{"error":"X"}`. -/
def aErrX : AnalysisJson :=
  { error := Option.some "X", match_score := Option.none, summary := Option.none,
    missing_keywords := Option.none, tailoring_suggestions := Option.none,
    ats_score := Option.none, strengths := Option.none, feedback := Option.none,
    job_suggestions := Option.none }

/-- A 400 response carrying the structured error body. -/
def rErrX : Response :=
  { status := 400, statusText := "Bad Request", body := Body.json aErrX }

/-- A 500 response whose body is not valid JSON. -/
def rErr500 : Response :=
  { status := 500, statusText := "Internal Server Error", body := Body.malformed "oops" }

/-- A 2xx response whose body is not valid JSON. -/
def rBad200 : Response :=
  { status := 200, statusText := "OK", body := Body.malformed "<html>truncated" }

/-- A general-analysis body whose `ats_score` is the legitimate value 0. -/
def aZero : AnalysisJson :=
  { error := Option.none, match_score := Option.none, summary := Option.none,
    missing_keywords := Option.none, tailoring_suggestions := Option.none,
    ats_score := Option.some 0, strengths := Option.some [], feedback := Option.some [],
    job_suggestions := Option.some [] }

/-- A 200 response carrying `aZero`. -/
def rZero : Response :=
  { status := 200, statusText := "OK", body := Body.json aZero }

/-- A well-formed general-analysis body. -/
def aGen : AnalysisJson :=
  { error := Option.none, match_score := Option.none, summary := Option.none,
    missing_keywords := Option.none, tailoring_suggestions := Option.none,
    ats_score := Option.some 85, strengths := Option.some ["Strong action verbs"],
    feedback := Option.some ["Add quantifiable metrics"],
    job_suggestions := Option.some ["Data Analyst"] }

/-- A 200 response carrying `aGen`. -/
def rGen : Response :=
  { status := 200, statusText := "OK", body := Body.json aGen }

/-- A well-formed match-analysis body. -/
def aMatch : AnalysisJson :=
  { error := Option.none, match_score := Option.some 72, summary := Option.some "Good fit",
    missing_keywords := Option.some ["Python", "SQL"],
    tailoring_suggestions := Option.some ["Add Python projects"],
    ats_score := Option.none, strengths := Option.none, feedback := Option.none,
    job_suggestions := Option.none }

/-- A 200 response carrying `aMatch`. -/
def rMatch : Response :=
  { status := 200, statusText := "OK", body := Body.json aMatch }

/-- A match-analysis body with no missing keywords and no summary. -/
def aMk0 : AnalysisJson :=
  { error := Option.none, match_score := Option.some 90, summary := Option.none,
    missing_keywords := Option.some [],
    tailoring_suggestions := Option.some ["Tighten the summary"],
    ats_score := Option.none, strengths := Option.none, feedback := Option.none,
    job_suggestions := Option.none }

/-- A 200 response carrying `aMk0`. -/
def rMk0 : Response :=
  { status := 200, statusText := "OK", body := Body.json aMk0 }

/-- A valid JSON body that lacks every list field the general branch reads. -/
def aNoLists : AnalysisJson :=
  { error := Option.none, match_score := Option.none, summary := Option.none,
    missing_keywords := Option.none, tailoring_suggestions := Option.none,
    ats_score := Option.some 40, strengths := Option.none, feedback := Option.none,
    job_suggestions := Option.none }

/-- A 200 response carrying `aNoLists`. -/
def rNoLists : Response :=
  { status := 200, statusText := "OK", body := Body.json aNoLists }

/-! ### String-containment infrastructure

`containsStr hay needle` states that `needle` occurs contiguously inside
`hay`; it is the notion of "the rendered output includes ..." used by the
testable properties. -/

/-- `needle` occurs contiguously inside `hay`. -/
def containsStr (hay needle : String) : Prop :=
  needle.data <:+: hay.data

instance (hay needle : String) : Decidable (containsStr hay needle) := by
  unfold containsStr; infer_instance

theorem data_append (a b : String) : (a ++ b).data = a.data ++ b.data := rfl

theorem contains_refl (a : String) : containsStr a a := ⟨[], [], by simp⟩

theorem contains_empty (h : String) : containsStr h "" := ⟨[], h.data, by simp⟩

theorem contains_appendL {a n : String} (b : String) (h : containsStr a n) :
    containsStr (a ++ b) n := by
  obtain ⟨p, q, hpq⟩ := h
  exact ⟨p, q ++ b.data, by simp [data_append, ← hpq]⟩

theorem contains_appendR {b n : String} (a : String) (h : containsStr b n) :
    containsStr (a ++ b) n := by
  obtain ⟨p, q, hpq⟩ := h
  exact ⟨a.data ++ p, q, by simp [data_append, ← hpq]⟩

theorem contains_wrap (pre n post : String) : containsStr (pre ++ n ++ post) n := by
  exact contains_appendL post (contains_appendR pre (contains_refl n))

theorem contains_trans {a b c : String} (h1 : containsStr a b) (h2 : containsStr b c) :
    containsStr a c := h2.trans h1

theorem mem_jsJoin {sep : String} : ∀ (l : List String) (x : String),
    x ∈ l → containsStr (jsJoin sep l) x
  | [a], x, hx => by
    rcases List.mem_singleton.mp hx with rfl
    exact contains_refl x
  | a :: b :: t, x, hx => by
    show containsStr (a ++ sep ++ jsJoin sep (b :: t)) x
    rcases List.mem_cons.mp hx with rfl | hmem
    · exact contains_appendL _ (contains_appendL _ (contains_refl x))
    · exact contains_appendR _ (mem_jsJoin (b :: t) x hmem)

theorem jsJoin_eq_empty {sep : String} (hsep : sep ≠ "") :
    ∀ {l : List String}, jsJoin sep l = "" → ∀ x ∈ l, x = "" := by
  intro l
  match l with
  | [] => intro _ x hx; cases hx
  | [a] => intro h x hx; rcases List.mem_singleton.mp hx with rfl; exact h
  | a :: b :: t =>
    intro h x hx
    exfalso
    have hd : (a ++ sep ++ jsJoin sep (b :: t)).data = ([] : List Char) := by
      rw [show jsJoin sep (a :: b :: t) = a ++ sep ++ jsJoin sep (b :: t) from rfl] at h
      rw [h]
    rw [data_append, data_append] at hd
    rcases List.append_eq_nil.mp hd with ⟨hd1, hd2⟩
    rcases List.append_eq_nil.mp hd1 with ⟨_, hsepnil⟩
    exact hsep (by cases sep with | mk d => simp at hsepnil; simp [hsepnil])

/-- Every keyword occurs in the rendered `join(', ') || fallback` slot: if
the joined string is falsy (empty) every element was itself empty, hence a
substring of anything. -/
theorem mem_keyword_slot (fb : String) (l : List String) (x : String) (hx : x ∈ l) :
    containsStr (jsOrStr (jsJoin ", " l) fb) x := by
  unfold jsOrStr
  by_cases hz : jsJoin ", " l = ""
  · have hxe : x = "" := jsJoin_eq_empty (by decide) hz x hx
    subst hxe
    simp only [hz, if_pos rfl]
    exact contains_empty fb
  · simp only [if_neg hz]
    exact mem_jsJoin l x hx

theorem ne_of_head_ne {a b : String} (h : a.data.head? ≠ b.data.head?) : a ≠ b :=
  fun he => h (by rw [he])

/-- The generic status-derived message never coincides with the fixed parse
explanation (their first characters already differ). -/
theorem server_msg_ne_parseFail (x y : String) :
    ("Server returned an error: " ++ x ++ " " ++ y) ≠ parseFailMsg := by
  apply ne_of_head_ne
  have hl : (("Server returned an error: " ++ x ++ " " ++ y).data).head? = Option.some 'S' := by
    rw [data_append, data_append, data_append]; rfl
  rw [hl]
  intro hcontra
  exact absurd (Option.some.inj hcontra.symm) (by decide)

/-- A missing-field TypeError message never coincides with the fixed parse
explanation. -/
theorem typeErr_msg_ne_parseFail (p : String) :
    ("Cannot read properties of undefined (reading \x27" ++ p ++ "\x27)") ≠ parseFailMsg := by
  apply ne_of_head_ne
  have hl : ((("Cannot read properties of undefined (reading \x27" ++ p ++ "\x27)")).data).head?
      = Option.some 'C' := by
    rw [data_append, data_append]; rfl
  rw [hl]
  intro hcontra
  exact absurd (Option.some.inj hcontra.symm) (by decide)

/-- The decimal rendering of a score in the documented range is never the
literal `"N/A"`. -/
theorem toString_int_ne_NA (n : Int) (h0 : 0 ≤ n) (h1 : n ≤ 100) : toString n ≠ "N/A" := by
  lift n to ℕ using h0 with m
  have hm : m ≤ 100 := by exact_mod_cast h1
  have hts : toString (m : ℤ) = toString m := rfl
  rw [hts]
  interval_cases m <;> decide

/-- The `finally` block runs on every completed submission. -/
theorem finally_cleanup (s : UIState) (r : Response) :
    (onSubmit s r).loaderDisplay = "none"
    ∧ (onSubmit s r).resultsDisplay = "block"
    ∧ (onSubmit s r).analyzeAnotherDisplay = "block" := by
  cases h : tryBlock r <;> simp [onSubmit, h]

/-! ### Evaluation lemmas for the submit handler -/

/-- Whatever the body, the error-status branch throws the generic
status-derived message: the structured `throw` inside the inner `try` is
itself caught by the inner `catch`. -/
theorem errorStatusBranch_eq (r : Response) :
    errorStatusBranch r = Except.error (JsError.error
      ("Server returned an error: " ++ toString r.status ++ " " ++ r.statusText)) := by
  rcases r with ⟨st, sx, b⟩
  cases b <;> rfl

theorem tryBlock_not_ok {r : Response} (h : Response.ok r = false) :
    tryBlock r = Except.error (JsError.error
      ("Server returned an error: " ++ toString r.status ++ " " ++ r.statusText)) := by
  unfold tryBlock
  rw [h]
  simpa using errorStatusBranch_eq r

theorem tryBlock_malformed {r : Response} {raw : String} (hok : Response.ok r = true)
    (hb : r.body = Body.malformed raw) :
    tryBlock r = Except.error (JsError.syntaxError "Unexpected token in JSON") := by
  unfold tryBlock
  rw [hok, hb]
  rfl

theorem tryBlock_match {r : Response} {a : AnalysisJson} {ms : Int} {mk ts : List String}
    (hok : Response.ok r = true) (hb : r.body = Body.json a)
    (hms : a.match_score = Option.some ms)
    (hmk : a.missing_keywords = Option.some mk)
    (hts : a.tailoring_suggestions = Option.some ts) :
    tryBlock r = Except.ok ("<h2>Analysis Complete!</h2>"
      ++ ("<h3>Match Score: <span class=\"score\">" ++ toString ms ++ "/100</span></h3>"
      ++ "<p>" ++ jsOrOptStr a.summary "A summary of how well your resume matches the job description." ++ "</p>"
      ++ "<h4>❌ Missing Keywords:</h4>"
      ++ "<p>" ++ jsOrStr (jsJoin ", " mk) "Great job, no critical keywords seem to be missing!" ++ "</p>"
      ++ "<h4>💡 Tailoring Suggestions:</h4>"
      ++ "<ul>" ++ jsJoin "" (ts.map (fun item => "<li>" ++ item ++ "</li>")) ++ "</ul>")) := by
  unfold tryBlock renderMatch
  rw [hok, hb]
  simp [jsonParse, bind, Except.bind, hms, hmk, hts, listField, pure, Except.pure]

theorem tryBlock_general {r : Response} {a : AnalysisJson} {st fb js : List String}
    (hok : Response.ok r = true) (hb : r.body = Body.json a)
    (hms : a.match_score = Option.none)
    (hst : a.strengths = Option.some st)
    (hfb : a.feedback = Option.some fb)
    (hjs : a.job_suggestions = Option.some js) :
    tryBlock r = Except.ok ("<h2>Analysis Complete!</h2>"
      ++ ("<h3>ATS Score: <span class=\"score\">" ++ jsOrNum a.ats_score "N/A" ++ "/100</span></h3>"
      ++ "<h4>✅ Strengths:</h4>"
      ++ "<ul>" ++ jsJoin "" (st.map (fun item => "<li>" ++ item ++ "</li>")) ++ "</ul>"
      ++ "<h4>📝 Feedback for Improvement:</h4>"
      ++ "<ul>" ++ jsJoin "" (fb.map (fun item => "<li>" ++ item ++ "</li>")) ++ "</ul>"
      ++ "<h4>🚀 Suggested Job Roles:</h4>"
      ++ "<ul>" ++ jsJoin "" (js.map (fun role =>
            "<li>" ++ role ++ " - <a href=\"" ++ linkedinUrl role ++ "\" target=\"_blank\">Search on LinkedIn</a></li>")) ++ "</ul>")) := by
  unfold tryBlock renderGeneral
  rw [hok, hb]
  simp [jsonParse, bind, Except.bind, hms, hst, hfb, hjs, listField, pure, Except.pure]

theorem tryBlock_match_noMk {r : Response} {a : AnalysisJson} {ms : Int}
    (hok : Response.ok r = true) (hb : r.body = Body.json a)
    (hms : a.match_score = Option.some ms)
    (hmk : a.missing_keywords = Option.none) :
    tryBlock r = Except.error
      (JsError.typeError "Cannot read properties of undefined (reading \x27join\x27)") := by
  unfold tryBlock renderMatch
  rw [hok, hb]
  simp [jsonParse, bind, Except.bind, hms, hmk, listField, pure, Except.pure, throw, throwThe]

theorem tryBlock_match_noTs {r : Response} {a : AnalysisJson} {ms : Int} {mk : List String}
    (hok : Response.ok r = true) (hb : r.body = Body.json a)
    (hms : a.match_score = Option.some ms)
    (hmk : a.missing_keywords = Option.some mk)
    (hts : a.tailoring_suggestions = Option.none) :
    tryBlock r = Except.error
      (JsError.typeError "Cannot read properties of undefined (reading \x27map\x27)") := by
  unfold tryBlock renderMatch
  rw [hok, hb]
  simp [jsonParse, bind, Except.bind, hms, hmk, hts, listField, pure, Except.pure, throw, throwThe]

theorem tryBlock_general_noSt {r : Response} {a : AnalysisJson}
    (hok : Response.ok r = true) (hb : r.body = Body.json a)
    (hms : a.match_score = Option.none)
    (hst : a.strengths = Option.none) :
    tryBlock r = Except.error
      (JsError.typeError "Cannot read properties of undefined (reading \x27map\x27)") := by
  unfold tryBlock renderGeneral
  rw [hok, hb]
  simp [jsonParse, bind, Except.bind, hms, hst, listField, pure, Except.pure, throw, throwThe]

theorem tryBlock_general_noFb {r : Response} {a : AnalysisJson} {st : List String}
    (hok : Response.ok r = true) (hb : r.body = Body.json a)
    (hms : a.match_score = Option.none)
    (hst : a.strengths = Option.some st)
    (hfb : a.feedback = Option.none) :
    tryBlock r = Except.error
      (JsError.typeError "Cannot read properties of undefined (reading \x27map\x27)") := by
  unfold tryBlock renderGeneral
  rw [hok, hb]
  simp [jsonParse, bind, Except.bind, hms, hst, hfb, listField, pure, Except.pure, throw, throwThe]

theorem tryBlock_general_noJs {r : Response} {a : AnalysisJson} {st fb : List String}
    (hok : Response.ok r = true) (hb : r.body = Body.json a)
    (hms : a.match_score = Option.none)
    (hst : a.strengths = Option.some st)
    (hfb : a.feedback = Option.some fb)
    (hjs : a.job_suggestions = Option.none) :
    tryBlock r = Except.error
      (JsError.typeError "Cannot read properties of undefined (reading \x27map\x27)") := by
  unfold tryBlock renderGeneral
  rw [hok, hb]
  simp [jsonParse, bind, Except.bind, hms, hst, hfb, hjs, listField, pure, Except.pure, throw, throwThe]

/-- Every exception reaching the `catch` block is a parse `SyntaxError`, the
generic status-derived `Error`, or a `TypeError` from a missing list field. -/
theorem tryBlock_error_shape {r : Response} {e : JsError}
    (h : tryBlock r = Except.error e) :
    (∃ m, e = JsError.syntaxError m) ∨
    e = JsError.error ("Server returned an error: " ++ toString r.status ++ " " ++ r.statusText) ∨
    (∃ p, e = JsError.typeError ("Cannot read properties of undefined (reading \x27" ++ p ++ "\x27)")) := by
  by_cases hok : Response.ok r
  · rcases hb : r.body with raw | a
    · rw [tryBlock_malformed hok hb] at h
      exact Or.inl ⟨_, (Except.error.inj h).symm⟩
    · rcases hms : a.match_score with _ | ms
      · rcases hst : a.strengths with _ | st
        · rw [tryBlock_general_noSt hok hb hms hst] at h
          refine Or.inr (Or.inr ⟨"map", ?_⟩)
          exact (Except.error.inj h).symm
        rcases hfb : a.feedback with _ | fb
        · rw [tryBlock_general_noFb hok hb hms hst hfb] at h
          refine Or.inr (Or.inr ⟨"map", ?_⟩)
          exact (Except.error.inj h).symm
        rcases hjs : a.job_suggestions with _ | js
        · rw [tryBlock_general_noJs hok hb hms hst hfb hjs] at h
          refine Or.inr (Or.inr ⟨"map", ?_⟩)
          exact (Except.error.inj h).symm
        rw [tryBlock_general hok hb hms hst hfb hjs] at h
        cases h
      · rcases hmk : a.missing_keywords with _ | mk
        · rw [tryBlock_match_noMk hok hb hms hmk] at h
          refine Or.inr (Or.inr ⟨"join", ?_⟩)
          exact (Except.error.inj h).symm
        rcases hts : a.tailoring_suggestions with _ | ts
        · rw [tryBlock_match_noTs hok hb hms hmk hts] at h
          refine Or.inr (Or.inr ⟨"map", ?_⟩)
          exact (Except.error.inj h).symm
        rw [tryBlock_match hok hb hms hmk hts] at h
        cases h
  · rw [tryBlock_not_ok (by simpa using hok)] at h
    exact Or.inr (Or.inl (Except.error.inj h).symm)

theorem onSubmit_html_ok {s : UIState} {r : Response} {h : String}
    (ht : tryBlock r = Except.ok h) : (onSubmit s r).resultsHTML = h := by
  simp [onSubmit, ht]

theorem onSubmit_html_err {s : UIState} {r : Response} {e : JsError}
    (ht : tryBlock r = Except.error e) :
    (onSubmit s r).resultsHTML = errorBox (errorMessageFor e) := by
  simp [onSubmit, ht]

/-! ### Claims -/

/-- C1: the spec claims that for a non-2xx response whose body is the JSON
text `{"error":"X"}`, the rendered error message equals `"X"`.  The code
does not do this: the structured `throw new Error(errorData.error || …)`
sits inside the same `try` whose `catch` replaces every exception with the
generic status-derived message, so at the failing input (status 400 "Bad
Request", body `{"error":"X"}`) the rendered message is
`"Server returned an error: 400 Bad Request"`, not `"X"`. -/
theorem c1_error_field_never_rendered :
    (onSubmit s0 rErrX).resultsHTML = errorBox "Server returned an error: 400 Bad Request"
    ∧ errorBox "Server returned an error: 400 Bad Request" ≠ errorBox "X" := by
  constructor
  · rw [onSubmit_html_err (tryBlock_not_ok (by decide))]
    decide
  · decide

/-- C5: for every submission whose response has a non-2xx status and whose
body is not valid JSON, the rendered error message equals
`"Server returned an error: <status> <statusText>"`. -/
theorem c5_generic_server_error (s : UIState) (r : Response) (raw : String)
    (hok : Response.ok r = false) (hb : r.body = Body.malformed raw) :
    (onSubmit s r).resultsHTML
      = errorBox ("Server returned an error: " ++ toString r.status ++ " " ++ r.statusText) := by
  rw [onSubmit_html_err (tryBlock_not_ok hok)]
  rfl

/-- Witness for C5 at the concrete response `rErr500`. -/
theorem c5_generic_server_error_witness :
    (onSubmit s0 rErr500).resultsHTML
      = errorBox ("Server returned an error: " ++ toString rErr500.status ++ " " ++ rErr500.statusText) :=
  c5_generic_server_error s0 rErr500 "oops" (by decide) rfl

/-- C6: for every completed submission, success or error alike, the final
state has the loader hidden, the results container visible, and the
analyze-another action visible. -/
theorem c6_final_ui_state (s : UIState) (r : Response) :
    (onSubmit s r).loaderDisplay = "none"
    ∧ (onSubmit s r).resultsDisplay = "block"
    ∧ (onSubmit s r).analyzeAnotherDisplay = "block" :=
  finally_cleanup s r

/-- C7: after the reset action, the results container and the
analyze-another action are hidden, the form's fields are cleared, the
filename display shows the placeholder, and the form is visible again. -/
theorem c7_reset_restores_form (s : UIState) :
    (onAnalyzeAnother s).resultsDisplay = "none"
    ∧ (onAnalyzeAnother s).analyzeAnotherDisplay = "none"
    ∧ (onAnalyzeAnother s).files = []
    ∧ (onAnalyzeAnother s).jobDescription = ""
    ∧ (onAnalyzeAnother s).fileNameText = "No file chosen"
    ∧ (onAnalyzeAnother s).formContainerDisplay = "block" := by
  simp [onAnalyzeAnother]

/-- C8: the file-input change handler shows the chosen file's name when
exactly one file is selected, and the placeholder when none is. -/
theorem c8_filename_display (s : UIState) (n : String) :
    (onFileChange { s with files := [n] }).fileNameText = n
    ∧ (onFileChange { s with files := [] }).fileNameText = "No file chosen" := by
  constructor <;> rfl

/-- C3: for every 2xx response with a valid JSON body containing
`match_score` (and the list fields the match template reads), the rendered
output includes that score and every element of `missing_keywords` and of
`tailoring_suggestions`. -/
theorem c3_match_rendering (s : UIState) (r : Response) (a : AnalysisJson) (ms : Int)
    (mk ts : List String)
    (hok : Response.ok r = true) (hb : r.body = Body.json a)
    (hms : a.match_score = Option.some ms)
    (hmk : a.missing_keywords = Option.some mk)
    (hts : a.tailoring_suggestions = Option.some ts) :
    containsStr ((onSubmit s r).resultsHTML)
      ("<h3>Match Score: <span class=\"score\">" ++ toString ms ++ "/100</span></h3>")
    ∧ (∀ x ∈ mk, containsStr ((onSubmit s r).resultsHTML) x)
    ∧ (∀ x ∈ ts, containsStr ((onSubmit s r).resultsHTML) x) := by
  rw [onSubmit_html_ok (tryBlock_match hok hb hms hmk hts)]
  refine ⟨?_, ?_, ?_⟩
  · exact contains_appendR _ (contains_appendL _ <| contains_appendL _ <|
      contains_appendL _ <| contains_appendL _ <| contains_appendL _ <|
      contains_appendL _ <| contains_appendL _ <| contains_appendL _ <|
      contains_appendL _ <| contains_appendL _ <| contains_appendL _ <|
      contains_refl _)
  · intro x hx
    exact contains_appendR _ (contains_appendL _ <| contains_appendL _ <|
      contains_appendL _ <| contains_appendL _ <| contains_appendL _ <|
      contains_appendR _ <| mem_keyword_slot _ mk x hx)
  · intro x hx
    refine contains_appendR _ (contains_appendL _ (contains_appendR _ ?_))
    exact contains_trans (mem_jsJoin _ _ (List.mem_map_of_mem _ hx))
      (contains_wrap "<li>" x "</li>")

/-- Witness for C3 at the concrete response `rMatch`. -/
theorem c3_match_rendering_witness :
    containsStr ((onSubmit s0 rMatch).resultsHTML)
      ("<h3>Match Score: <span class=\"score\">" ++ toString (72 : Int) ++ "/100</span></h3>")
    ∧ containsStr ((onSubmit s0 rMatch).resultsHTML) "Python"
    ∧ containsStr ((onSubmit s0 rMatch).resultsHTML) "Add Python projects" := by
  have h := c3_match_rendering s0 rMatch aMatch 72 ["Python", "SQL"] ["Add Python projects"]
    (by decide) rfl rfl rfl rfl
  exact ⟨h.1, h.2.1 "Python" (by simp), h.2.2 "Add Python projects" (by simp)⟩

/-- C4: for every 2xx response whose body is not valid JSON, the rendered
error message equals the fixed large-resume parse explanation, and that
explanation differs from the message rendered for any non-parse error the
handler can raise. -/
theorem c4_parse_failure_message (s : UIState) (r r2 : Response) (raw : String) (e : JsError)
    (hok : Response.ok r = true) (hb : r.body = Body.malformed raw)
    (h2 : tryBlock r2 = Except.error e) (hns : ∀ m, e ≠ JsError.syntaxError m) :
    (onSubmit s r).resultsHTML = errorBox parseFailMsg
    ∧ errorMessageFor e ≠ parseFailMsg := by
  constructor
  · rw [onSubmit_html_err (tryBlock_malformed hok hb)]
    rfl
  · rcases tryBlock_error_shape h2 with ⟨m, rfl⟩ | rfl | ⟨p, rfl⟩
    · exact absurd rfl (hns m)
    · exact server_msg_ne_parseFail _ _
    · exact typeErr_msg_ne_parseFail p

/-- Witness for C4 at the concrete responses `rBad200` and `rErr500`. -/
theorem c4_parse_failure_message_witness :
    (onSubmit s0 rBad200).resultsHTML = errorBox parseFailMsg
    ∧ errorMessageFor (JsError.error
        ("Server returned an error: " ++ toString rErr500.status ++ " " ++ rErr500.statusText))
        ≠ parseFailMsg :=
  c4_parse_failure_message s0 rBad200 rErr500 "<html>truncated" _
    (by decide) rfl (tryBlock_not_ok (by decide)) (fun m h => JsError.noConfusion h)

/-- C9: for every 2xx match-analysis response whose `missing_keywords` list
is empty, the rendered output contains the fixed reassurance text in place
of the keyword list; and when the summary is absent or empty the fixed
default summary sentence is rendered in its place. -/
theorem c9_empty_keywords_fallbacks (s : UIState) (r : Response) (a : AnalysisJson)
    (ms : Int) (ts : List String)
    (hok : Response.ok r = true) (hb : r.body = Body.json a)
    (hms : a.match_score = Option.some ms)
    (hmk : a.missing_keywords = Option.some [])
    (hts : a.tailoring_suggestions = Option.some ts) :
    containsStr ((onSubmit s r).resultsHTML)
      "Great job, no critical keywords seem to be missing!"
    ∧ ((a.summary = Option.none ∨ a.summary = Option.some "") →
        containsStr ((onSubmit s r).resultsHTML)
          "A summary of how well your resume matches the job description.") := by
  rw [onSubmit_html_ok (tryBlock_match hok hb hms hmk hts)]
  constructor
  · have h9 : jsOrStr (jsJoin ", " ([] : List String))
        "Great job, no critical keywords seem to be missing!"
        = "Great job, no critical keywords seem to be missing!" := by decide
    refine contains_appendR _ (contains_appendL _ <| contains_appendL _ <|
      contains_appendL _ <| contains_appendL _ <| contains_appendL _ <|
      contains_appendR _ ?_)
    rw [h9]
    exact contains_refl _
  · intro hsum
    have h5 : jsOrOptStr a.summary
        "A summary of how well your resume matches the job description."
        = "A summary of how well your resume matches the job description." := by
      rcases hsum with h | h <;> rw [h] <;> rfl
    refine contains_appendR _ (contains_appendL _ <| contains_appendL _ <|
      contains_appendL _ <| contains_appendL _ <| contains_appendL _ <|
      contains_appendL _ <| contains_appendL _ <| contains_appendL _ <|
      contains_appendL _ <| contains_appendR _ ?_)
    rw [h5]
    exact contains_refl _

/-- Witness for C9 at the concrete response `rMk0`. -/
theorem c9_empty_keywords_fallbacks_witness :
    containsStr ((onSubmit s0 rMk0).resultsHTML)
      "Great job, no critical keywords seem to be missing!"
    ∧ containsStr ((onSubmit s0 rMk0).resultsHTML)
      "A summary of how well your resume matches the job description." := by
  have h := c9_empty_keywords_fallbacks s0 rMk0 aMk0 90 ["Tighten the summary"]
    (by decide) rfl rfl rfl rfl
  exact ⟨h.1, h.2 (Or.inl rfl)⟩

/-- C10: for every 2xx response whose valid JSON body lacks a list field
the chosen rendering branch requires, the submission still completes: an
error box is rendered with the raised error's own message (which is not the
fixed parse explanation), and the finally-cleanup still runs. -/
theorem c10_missing_list_field (s : UIState) (r : Response) (a : AnalysisJson)
    (hok : Response.ok r = true) (hb : r.body = Body.json a)
    (hmiss : requiredListMissing a = true) :
    ∃ e : JsError, tryBlock r = Except.error e
      ∧ (∀ m, e ≠ JsError.syntaxError m)
      ∧ (onSubmit s r).resultsHTML = errorBox (errorMessageFor e)
      ∧ errorMessageFor e ≠ parseFailMsg
      ∧ (onSubmit s r).loaderDisplay = "none"
      ∧ (onSubmit s r).resultsDisplay = "block"
      ∧ (onSubmit s r).analyzeAnotherDisplay = "block" := by
  obtain ⟨hcl1, hcl2, hcl3⟩ := finally_cleanup s r
  rcases hms : a.match_score with _ | ms
  · rcases hst : a.strengths with _ | st
    · exact ⟨_, tryBlock_general_noSt hok hb hms hst, fun m h => JsError.noConfusion h,
        onSubmit_html_err (tryBlock_general_noSt hok hb hms hst),
        typeErr_msg_ne_parseFail "map", hcl1, hcl2, hcl3⟩
    · rcases hfb : a.feedback with _ | fb
      · exact ⟨_, tryBlock_general_noFb hok hb hms hst hfb, fun m h => JsError.noConfusion h,
          onSubmit_html_err (tryBlock_general_noFb hok hb hms hst hfb),
          typeErr_msg_ne_parseFail "map", hcl1, hcl2, hcl3⟩
      · rcases hjs : a.job_suggestions with _ | js
        · exact ⟨_, tryBlock_general_noJs hok hb hms hst hfb hjs, fun m h => JsError.noConfusion h,
            onSubmit_html_err (tryBlock_general_noJs hok hb hms hst hfb hjs),
            typeErr_msg_ne_parseFail "map", hcl1, hcl2, hcl3⟩
        · simp [requiredListMissing, hms, hst, hfb, hjs] at hmiss
  · rcases hmk : a.missing_keywords with _ | mk
    · exact ⟨_, tryBlock_match_noMk hok hb hms hmk, fun m h => JsError.noConfusion h,
        onSubmit_html_err (tryBlock_match_noMk hok hb hms hmk),
        typeErr_msg_ne_parseFail "join", hcl1, hcl2, hcl3⟩
    · rcases hts : a.tailoring_suggestions with _ | ts
      · exact ⟨_, tryBlock_match_noTs hok hb hms hmk hts, fun m h => JsError.noConfusion h,
          onSubmit_html_err (tryBlock_match_noTs hok hb hms hmk hts),
          typeErr_msg_ne_parseFail "map", hcl1, hcl2, hcl3⟩
      · simp [requiredListMissing, hms, hmk, hts] at hmiss

/-- Witness for C10 at the concrete response `rNoLists`. -/
theorem c10_missing_list_field_witness :
    ∃ e : JsError, tryBlock rNoLists = Except.error e
      ∧ (∀ m, e ≠ JsError.syntaxError m)
      ∧ (onSubmit s0 rNoLists).resultsHTML = errorBox (errorMessageFor e)
      ∧ errorMessageFor e ≠ parseFailMsg
      ∧ (onSubmit s0 rNoLists).loaderDisplay = "none"
      ∧ (onSubmit s0 rNoLists).resultsDisplay = "block"
      ∧ (onSubmit s0 rNoLists).analyzeAnotherDisplay = "block" :=
  c10_missing_list_field s0 rNoLists aNoLists (by decide) rfl (by decide)

/-- C2 (amended): for every 2xx general-analysis response (no
`match_score`; the three list fields present; `ats_score`, when present, in
the documented range 0–100), the rendered output includes the ATS-score
slot, whose text is `"N/A"` exactly when `ats_score` is absent **or equal
to 0** (the script's `||` treats 0 as falsy) and the decimal score
otherwise, and includes every strength, every feedback item, and for every
suggested role a search link whose keywords query parameter is the
URL-encoded role and whose location parameter is the fixed value India. -/
theorem c2_general_rendering (s : UIState) (r : Response) (a : AnalysisJson)
    (st fb js : List String)
    (hok : Response.ok r = true) (hb : r.body = Body.json a)
    (hms : a.match_score = Option.none)
    (hst : a.strengths = Option.some st)
    (hfb : a.feedback = Option.some fb)
    (hjs : a.job_suggestions = Option.some js)
    (hrange : ∀ n, a.ats_score = Option.some n → 0 ≤ n ∧ n ≤ 100) :
    containsStr ((onSubmit s r).resultsHTML)
      ("<h3>ATS Score: <span class=\"score\">" ++ jsOrNum a.ats_score "N/A" ++ "/100</span></h3>")
    ∧ (jsOrNum a.ats_score "N/A" = "N/A"
        ↔ (a.ats_score = Option.none ∨ a.ats_score = Option.some 0))
    ∧ (∀ n, a.ats_score = Option.some n → n ≠ 0 → jsOrNum a.ats_score "N/A" = toString n)
    ∧ (∀ x ∈ st, containsStr ((onSubmit s r).resultsHTML) x)
    ∧ (∀ x ∈ fb, containsStr ((onSubmit s r).resultsHTML) x)
    ∧ (∀ role ∈ js, containsStr ((onSubmit s r).resultsHTML)
        ("https://www.linkedin.com/jobs/search/?keywords="
          ++ encodeURIComponent role ++ "&location=India")) := by
  rw [onSubmit_html_ok (tryBlock_general hok hb hms hst hfb hjs)]
  refine ⟨?_, ?_, ?_, ?_, ?_, ?_⟩
  · exact contains_appendR _ (contains_appendL _ <| contains_appendL _ <|
      contains_appendL _ <| contains_appendL _ <| contains_appendL _ <|
      contains_appendL _ <| contains_appendL _ <| contains_appendL _ <|
      contains_appendL _ <| contains_appendL _ <| contains_appendL _ <|
      contains_appendL _ <| contains_refl _)
  · constructor
    · intro hNA
      rcases hats : a.ats_score with _ | n
      · exact Or.inl rfl
      · rw [hats] at hNA
        by_cases hz : n = 0
        · subst hz; exact Or.inr rfl
        · exfalso
          obtain ⟨hn0, hn1⟩ := hrange n hats
          rw [show jsOrNum (Option.some n) "N/A" = toString n from by simp [jsOrNum, hz]] at hNA
          exact toString_int_ne_NA n hn0 hn1 hNA
    · intro h
      rcases h with h | h <;> rw [h] <;> rfl
  · intro n hn hz
    rw [hn]
    simp [jsOrNum, hz]
  · intro x hx
    refine contains_appendR _ (contains_appendL _ <| contains_appendL _ <|
      contains_appendL _ <| contains_appendL _ <| contains_appendL _ <|
      contains_appendL _ <| contains_appendL _ <| contains_appendL _ <|
      contains_appendL _ <| contains_appendR _ ?_)
    exact contains_trans (mem_jsJoin _ _ (List.mem_map_of_mem _ hx))
      (contains_wrap "<li>" x "</li>")
  · intro x hx
    refine contains_appendR _ (contains_appendL _ <| contains_appendL _ <|
      contains_appendL _ <| contains_appendL _ <| contains_appendL _ <|
      contains_appendR _ ?_)
    exact contains_trans (mem_jsJoin _ _ (List.mem_map_of_mem _ hx))
      (contains_wrap "<li>" x "</li>")
  · intro role hrole
    refine contains_appendR _ (contains_appendL _ (contains_appendR _ ?_))
    refine contains_trans (mem_jsJoin _ _ (List.mem_map_of_mem _ hrole)) ?_
    exact contains_appendL _ (contains_appendR _ (contains_refl _))

/-- Witness for the amended C2 at the concrete response `rGen`. -/
theorem c2_general_rendering_witness :
    containsStr ((onSubmit s0 rGen).resultsHTML)
      ("<h3>ATS Score: <span class=\"score\">" ++ jsOrNum aGen.ats_score "N/A" ++ "/100</span></h3>")
    ∧ containsStr ((onSubmit s0 rGen).resultsHTML) "Strong action verbs"
    ∧ containsStr ((onSubmit s0 rGen).resultsHTML) "Add quantifiable metrics"
    ∧ containsStr ((onSubmit s0 rGen).resultsHTML)
        ("https://www.linkedin.com/jobs/search/?keywords="
          ++ encodeURIComponent "Data Analyst" ++ "&location=India") := by
  have h := c2_general_rendering s0 rGen aGen
    ["Strong action verbs"] ["Add quantifiable metrics"] ["Data Analyst"]
    (by decide) rfl rfl rfl rfl rfl
    (by intro n hn; rw [← Option.some.inj hn]; exact ⟨by decide, by decide⟩)
  exact ⟨h.1, h.2.2.2.1 "Strong action verbs" (by simp),
    h.2.2.2.2.1 "Add quantifiable metrics" (by simp),
    h.2.2.2.2.2 "Data Analyst" (by simp)⟩

set_option maxRecDepth 40000 in
/-- Counterexample to C2 as stated: at the 2xx response `rZero`, whose body
has `ats_score = 0` (a value the data model allows), the score slot renders
`"N/A"` even though `ats_score` is present, so `"N/A"` does not appear
"exactly when ats_score is absent". -/
theorem c2_counterexample :
    aZero.ats_score = Option.some 0
    ∧ containsStr ((onSubmit s0 rZero).resultsHTML)
        "<h3>ATS Score: <span class=\"score\">N/A/100</span></h3>"
    ∧ ¬ containsStr ((onSubmit s0 rZero).resultsHTML)
        "ATS Score: <span class=\"score\">0/100" := by
  refine ⟨rfl, ?_, ?_⟩ <;> decide

end ResumeAnalyzer
